import Mathlib

/-!
Verification of the Gitea provider adapter (`gitea/client.go`,
`gitea/client_repositories_org.go`) via a shallow embedding.

The adapter delegates all networking to the Gitea SDK.  We model the SDK as an
explicit backend value (the repository store at the reference in question plus
injectable failures for the individual SDK endpoints) and record every SDK
endpoint invocation in a call list, so that "no network call is made" is a
provable statement about the embedding.

Helpers of this repository that live outside the two embedded files
(`gitprovider.ValidateAndDefaultInfo`, `validateOrgRepositoryRef`,
`validateOrganizationRef`, `allPages`, `handleHTTPError`,
`validateRepositoryAPI`, `repositoryToAPI`, `newOrgRepository` and the
repository handle's `Get`/`Set`/`Update`) are modelled from the specification;
each such definition carries a doc comment saying so.
-/

namespace GiteaSpec

/-- The neutral error taxonomy of the provider interface
(`gitprovider.ErrNotFound`, `ErrAlreadyExists`, `ErrDestructiveCallDisallowed`,
`ErrNoProviderSupport`, validation errors, wrapped transport/HTTP errors).
`wrapped` models Go's error wrapping via `fmt.Errorf("...: %w", err)`. -/
inductive GitError where
  | notFound : GitError
  | alreadyExists : GitError
  | destructiveCallDisallowed : GitError
  | noProviderSupport : GitError
  | validation : String → GitError
  | http : Nat → String → GitError
  | wrapped : String → GitError → GitError
deriving DecidableEq, Repr

/-- Go's `errors.Is`: the error matches the target directly, or after
unwrapping any number of `wrapped` layers. -/
def errorsIs : GitError → GitError → Bool
  | .wrapped m inner, target =>
      decide (GitError.wrapped m inner = target) || errorsIs inner target
  | e, target => decide (e = target)

/-- The SDK endpoints the embedded code can invoke
(`GetRepo`, `ListOrgRepos`, `CreateOrgRepo`, `CreateRepo`, `EditRepo`,
`DeleteRepo`).  Operations return the list of endpoints they invoked. -/
inductive SdkCall where
  | getRepo : SdkCall
  | listRepos : SdkCall
  | createOrgRepo : SdkCall
  | createRepo : SdkCall
  | editRepo : SdkCall
  | deleteRepo : SdkCall
deriving DecidableEq, Repr

/-- Embedding of `gitprovider.RepositoryInfo`: the neutral description of desired
repository state (description, default branch, visibility), all fields
optional pointers in Go. -/
structure RepositoryInfo where
  description : Option String
  defaultBranch : Option String
  visibility : Option String
deriving DecidableEq, Repr

/-- Modelled from the spec: `gitprovider.ValidateAndDefaultInfo` (gitprovider
package, not in src/) validates the info and fills in defaults before use.  We
model it as rejecting an unknown visibility value and defaulting a missing
visibility to `"private"`. -/
def validateAndDefaultInfo (i : RepositoryInfo) : Except GitError RepositoryInfo :=
  match i.visibility with
  | none => .ok { i with visibility := some "private" }
  | some v =>
      if v = "private" ∨ v = "public" ∨ v = "internal" then .ok i
      else .error (.validation "unknown visibility")

/-- Embedding of `gitprovider.OrganizationRef`: domain plus organization name. -/
structure OrganizationRef where
  domain : String
  organization : String
deriving DecidableEq, Repr

/-- Embedding of `gitprovider.OrgRepositoryRef`: an organization reference plus the
repository name. -/
structure OrgRepositoryRef where
  orgRef : OrganizationRef
  repositoryName : String
deriving DecidableEq, Repr

/-- Modelled from the spec: syntactic validity of an owner or repository name
"per the hosting service's rules" (validation helpers not in src/); modelled
as the name being nonempty. -/
def validName (s : String) : Bool := decide (s ≠ "")

/-- Modelled from the spec: `validateOrganizationRef` (not in src/) checks the
reference's domain equals the client's configured domain and the organization
name is syntactically valid. -/
def validateOrganizationRef (ref : OrganizationRef) (domain : String) : Option GitError :=
  if ref.domain = domain then
    if validName ref.organization then none
    else some (.validation "invalid organization name")
  else some (.validation "domain mismatch")

/-- Modelled from the spec: `validateOrgRepositoryRef` (not in src/) checks the
embedded organization reference and that the repository name is syntactically
valid. -/
def validateOrgRepositoryRef (ref : OrgRepositoryRef) (domain : String) : Option GitError :=
  match validateOrganizationRef ref.orgRef domain with
  | some e => some e
  | none =>
      if validName ref.repositoryName then none
      else some (.validation "invalid repository name")

/-- The SDK's repository object (`gitea.Repository`), reduced to the fields the
adapter reads: the name and the state the adapter maps to `RepositoryInfo`. -/
structure GiteaRepository where
  name : String
  info : RepositoryInfo
deriving DecidableEq, Repr

/-- Embedding of `knownLicenseTemplateMap` from `client_repositories_org.go`: a three-entry
Go map; indexing a Go map off a missing key yields the zero value `""`. -/
def knownLicenseTemplateMap (s : String) : String :=
  if s = "apache-2.0" then "Apache-2.0"
  else if s = "mit" then "MIT"
  else if s = "gpl-3.0" then "GPL-3.0-only"
  else ""

/-- The function `hasPrefixL cs ps` models Go's `strings.HasPrefix` on character lists. -/
def hasPrefixL : List Char → List Char → Bool
  | _, [] => true
  | [], _ :: _ => false
  | a :: as, b :: bs => decide (a = b) && hasPrefixL as bs

/-- The function `containsL s pat` models Go's `strings.Contains` on character lists. -/
def containsL : List Char → List Char → Bool
  | [], pat => pat.isEmpty
  | a :: as, pat => hasPrefixL (a :: as) pat || containsL as pat

/-- Go's `strings.Contains` on strings. -/
def strContains (s pat : String) : Bool := containsL s.data pat.data

/-- Embedding of `DefaultDomain` from `client.go`. -/
def DefaultDomain : String := "gitea.com"

/-- The `clientContext` of `client.go`: SDK handle left implicit, configured
domain and the destructive-actions flag; immutable after construction. -/
structure ClientContext where
  domain : String
  destructiveActions : Bool
deriving DecidableEq, Repr

/-- Embedding of `NewClient` from `client.go`, restricted to the domain / base-URL / flag
logic (transport-chain assembly is delegated to the wrapped SDK): picks the
domain (default `"gitea.com"`), forms the SDK base URL — prefixing
`"https://"` and appending `"/"` when the domain has no `"://"` — and defaults
the destructive-actions flag to `false`.  Returns the client context together
with the base URL handed to the SDK. -/
def NewClient (optsDomain : Option String) (optsEnableDestructive : Option Bool) :
    ClientContext × String :=
  let domain := match optsDomain with
    | some d => d
    | none => DefaultDomain
  let baseURL := if strContains domain "://" then domain
    else "https://" ++ domain ++ "/"
  let destructiveActions := match optsEnableDestructive with
    | some b => b
    | none => false
  (⟨domain, destructiveActions⟩, baseURL)

/-- Embedding of `Client.SupportedDomain` from `client.go`: returns the stored domain. -/
def SupportedDomain (c : ClientContext) : String := c.domain

/-- Embedding of `gitprovider.TokenPermission` (an enumeration in the provider interface),
reduced to its underlying tag. -/
structure TokenPermission where
  val : Nat
deriving DecidableEq, Repr

/-- Embedding of `Client.HasTokenPermission` from `client.go`: returns
`(false, ErrNoProviderSupport)` unconditionally; the call list it produces is
empty because the body never touches the SDK handle. -/
def HasTokenPermission (c : ClientContext) (permission : TokenPermission) :
    (Bool × GitError) × List SdkCall :=
  ((false, .noProviderSupport), [])

/-- Modelled from the spec: `handleHTTPError` (not in src/) classifies a
failed SDK call by HTTP status into NotFound (404), AlreadyExists (409), or a
generic wrapped error; a nil SDK error passes through as success. -/
def handleHTTPError (status : Nat) (sdkErr : Option String) : Option GitError :=
  match sdkErr with
  | none => none
  | some msg =>
      if status = 404 then some .notFound
      else if status = 409 then some .alreadyExists
      else some (.wrapped msg (.http status msg))

/-- Embedding of `deleteRepo` from `client_repositories_org.go`, parametrised by the HTTP
outcome the SDK's `DeleteRepo` would produce if invoked: with destructive
actions disallowed it returns the wrapped `ErrDestructiveCallDisallowed`
without invoking the SDK; otherwise it invokes `DeleteRepo` and classifies the
outcome. -/
def deleteRepo (sdkStatus : Nat) (sdkErr : Option String) (destructiveActions : Bool) :
    Option GitError × List SdkCall :=
  if !destructiveActions then
    (some (.wrapped "cannot delete repository" .destructiveCallDisallowed), [])
  else
    (handleHTTPError sdkStatus sdkErr, [.deleteRepo])

/-- The state of the hosted service at one repository reference, as the
adapter can observe it through the SDK: the stored repository info (if the
repository exists) plus injectable failures for the individual endpoints.  A
"faithful" backend has no injected failures and stores exactly what a create
or update writes. -/
structure Backend where
  store : Option RepositoryInfo
  getErr : Option GitError
  createErr : Option GitError
  updateErr : Option GitError
deriving DecidableEq, Repr

/-- The SDK side of `getRepo`: an injected transport failure if present,
otherwise `ErrNotFound` when the repository is absent (a 404 classified by
`handleHTTPError`), otherwise the stored info. -/
def getRepoB (b : Backend) : Except GitError RepositoryInfo :=
  match b.getErr with
  | some e => .error e
  | none =>
      match b.store with
      | none => .error .notFound
      | some i => .ok i

/-- The repository handle (`gitprovider.OrgRepository`): wraps the reference
it was constructed with together with the observed repository state.
Modelled from the spec where its constructor is concerned:
`newOrgRepository` (not in src/) "wraps the SDK's repository object plus its
reference". -/
structure OrgRepository where
  ref : OrgRepositoryRef
  info : RepositoryInfo
deriving DecidableEq, Repr

/-- Modelled from the spec: `newOrgRepository` (not in src/) pairs the caller's
reference with the API object. -/
def newOrgRepository (info : RepositoryInfo) (ref : OrgRepositoryRef) : OrgRepository :=
  ⟨ref, info⟩

/-- Embedding of `OrgRepositoriesClient.Get`: validates the reference against the client's
domain (no SDK call on failure), then performs `GET /repos/{owner}/{repo}` and
wraps the result with the caller's reference. -/
def Get (domain : String) (b : Backend) (ref : OrgRepositoryRef) :
    Except GitError OrgRepository × List SdkCall :=
  match validateOrgRepositoryRef ref domain with
  | some e => (.error e, [])
  | none =>
      match getRepoB b with
      | .error e => (.error e, [.getRepo])
      | .ok i => (.ok (newOrgRepository i ref), [.getRepo])

/-- One page of `ListOrgRepos` output: the repository objects and the error
the SDK reported alongside them. -/
abbrev Page := List GiteaRepository × Option GitError

/-- The page loop of `listOrgRepos` from `client_repositories_org.go`: the
closure passed to `allPages` appends a non-empty page to the accumulator and
hands `(resp, listErr)` up, but on an empty page returns `(nil, nil)` —
discarding `listErr`.  `allPages` itself (not in src/) is modelled from the
spec: it keeps calling the closure page by page, aborts with the first error
the closure returns, and stops when the closure signals no further response.
The `Nat` counts the `ListOrgRepos` invocations made. -/
def listOrgReposGo : List Page → List GiteaRepository →
    Except GitError (List GiteaRepository) × Nat
  | [], acc => (.ok acc, 0)
  | (page, e) :: rest, acc =>
      if page.length > 0 then
        match e with
        | some err => (.error err, 1)
        | none =>
            let r := listOrgReposGo rest (acc ++ page)
            (r.1, r.2 + 1)
      else (.ok acc, 1)

/-- Modelled from the spec: `validateRepositoryAPI` (not in src/) checks the
API object for structural completeness (required fields present); modelled as
requiring a nonempty repository name. -/
def validateRepositoryAPI (r : GiteaRepository) : Option GitError :=
  if r.name = "" then some (.validation "missing repository name") else none

/-- The loop of `validateRepositoryObjects`: the first invalid object's error,
if any. -/
def firstInvalid : List GiteaRepository → Option GitError
  | [] => none
  | r :: rest =>
      match validateRepositoryAPI r with
      | some e => some e
      | none => firstInvalid rest

/-- Embedding of `validateRepositoryObjects` from `client_repositories_org.go`: fails on the
first structurally invalid object, otherwise returns the objects unchanged. -/
def validateRepositoryObjects (rs : List GiteaRepository) :
    Except GitError (List GiteaRepository) :=
  match firstInvalid rs with
  | some e => .error e
  | none => .ok rs

/-- Embedding of `OrgRepositoriesClient.listOrgRepos`: runs the page loop, then validates
the accumulated objects. -/
def listOrgRepos (pages : List Page) :
    Except GitError (List GiteaRepository) × Nat :=
  match listOrgReposGo pages [] with
  | (.error e, n) => (.error e, n)
  | (.ok objs, n) => (validateRepositoryObjects objs, n)

/-- Embedding of `OrgRepositoriesClient.List`: validates the organization reference (no SDK
call on failure), fetches all pages, and wraps each object with a reference
built from the organization reference and the object's name. -/
def List' (domain : String) (pages : List Page) (ref : OrganizationRef) :
    Except GitError (List OrgRepository) × List SdkCall :=
  match validateOrganizationRef ref domain with
  | some e => (.error e, [])
  | none =>
      match listOrgRepos pages with
      | (.error e, n) => (.error e, List.replicate n .listRepos)
      | (.ok objs, n) =>
          (.ok (objs.map fun o => newOrgRepository o.info ⟨ref, o.name⟩),
           List.replicate n .listRepos)

/-- The SDK's `CreateRepoOption` object, reduced to the fields the adapter
writes. -/
structure CreateRepoOption where
  name : String
  description : String
  defaultBranch : String
  priv : Bool
  autoInit : Bool
  license : String
deriving DecidableEq, Repr

/-- Modelled from the spec: `repositoryToAPI` (conversion helper, not in src/)
maps the neutral info and the reference field-by-field onto the SDK
create-repository request (name from the reference, description, default
branch, private visibility); option-controlled fields start at their zero
values. -/
def repositoryToAPI (req : RepositoryInfo) (ref : OrgRepositoryRef) : CreateRepoOption :=
  { name := ref.repositoryName
    description := req.description.getD ""
    defaultBranch := req.defaultBranch.getD ""
    priv := decide (req.visibility = some "private")
    autoInit := false
    license := "" }

/-- The assembled `RepositoryCreateOptions` (the result of
`MakeRepositoryCreateOptions` on the caller's option list). -/
structure RepositoryCreateOptions where
  autoInit : Option Bool
  licenseTemplate : Option String
deriving DecidableEq, Repr

/-- Embedding of `createRepository` from `client_repositories_org.go`, up to the SDK call:
validates and defaults the info, converts it to the API request, and applies
the auto-init and license-template option overrides (the license template goes
through `knownLicenseTemplateMap`).  Returns the validated info together with
the request that would be issued. -/
def createRepository (ref : OrgRepositoryRef) (req : RepositoryInfo)
    (o : RepositoryCreateOptions) :
    Except GitError (RepositoryInfo × CreateRepoOption) :=
  match validateAndDefaultInfo req with
  | .error e => .error e
  | .ok req' =>
      let apiOpts := repositoryToAPI req' ref
      let apiOpts := match o.autoInit with
        | some b => { apiOpts with autoInit := b }
        | none => apiOpts
      let apiOpts := match o.licenseTemplate with
        | some lt => { apiOpts with license := knownLicenseTemplateMap lt }
        | none => apiOpts
      .ok (req', apiOpts)

/-- The SDK side of `createRepo`: `CreateOrgRepo` when an organization name is
given, `CreateRepo` otherwise; an injected failure if present, a 409-classified
AlreadyExists when the name collides, else the new repository stored with the
requested state (faithful backend). -/
def createRepoB (b : Backend) (orgName : String) (req' : RepositoryInfo) :
    (Except GitError RepositoryInfo × Option RepositoryInfo) × List SdkCall :=
  let call := if orgName ≠ "" then SdkCall.createOrgRepo else SdkCall.createRepo
  match b.createErr with
  | some e => ((.error e, b.store), [call])
  | none =>
      match b.store with
      | some _ => ((.error .alreadyExists, b.store), [call])
      | none => ((.ok req', some req'), [call])

/-- The outcome of `OrgRepositoriesClient.Create`: the returned handle or
error, the backend store afterwards, and the SDK calls made. -/
structure CreateOut where
  res : Except GitError OrgRepository
  store : Option RepositoryInfo
  calls : List SdkCall
deriving Repr

/-- Embedding of `OrgRepositoriesClient.Create`: validates the reference against the
client's domain (no SDK call on failure), assembles the create request via
`createRepository`, and issues the create scoped to the organization. -/
def Create (domain : String) (b : Backend) (ref : OrgRepositoryRef)
    (req : RepositoryInfo) (o : RepositoryCreateOptions) : CreateOut :=
  match validateOrgRepositoryRef ref domain with
  | some e => ⟨.error e, b.store, []⟩
  | none =>
      match createRepository ref req o with
      | .error e => ⟨.error e, b.store, []⟩
      | .ok (req', _apiOpts) =>
          match createRepoB b ref.orgRef.organization req' with
          | ((.error e, st), cs) => ⟨.error e, st, cs⟩
          | ((.ok i, st), cs) => ⟨.ok (newOrgRepository i ref), st, cs⟩

/-- The outcome of `OrgRepositoriesClient.Reconcile`: the returned handle (nil
on the error paths that produce no handle), the `actionTaken` flag, the error,
the backend store afterwards, and the SDK calls made. -/
structure ReconcileOut where
  repo : Option OrgRepository
  actionTaken : Bool
  err : Option GitError
  store : Option RepositoryInfo
  calls : List SdkCall
deriving DecidableEq, Repr

/-- The error of an `Except`, if any. -/
def exceptErr : Except GitError OrgRepository → Option GitError
  | .error e => some e
  | .ok _ => none

/-- The success value of an `Except`, if any. -/
def exceptOk : Except GitError OrgRepository → Option OrgRepository
  | .error _ => none
  | .ok r => some r

/-- Embedding of `OrgRepositoriesClient.Reconcile` together with `reconcileRepository` from
`client_repositories_org.go`: validates and defaults the request in place;
attempts `Get`; on an error satisfying `errors.Is(err, ErrNotFound)` delegates
to `Create` with the defaulted request and reports `actionTaken = true`
regardless of the create's own outcome; on any other `Get` error returns it
with `actionTaken = false`; on success compares the defaulted request with the
handle's state — equal means no-op (`actionTaken = false`), different means
the request is staged onto the handle via `Set` and pushed via `Update`
(`EditRepo`), reporting `actionTaken = true` even when the update fails.
The handle's `Get`/`Set`/`Update` (not in src/) are modelled from the spec:
`Get` reads the wrapped state, `Set` stages the (already validated) desired
state on the handle, `Update` writes the staged state to the backend. -/
def Reconcile (domain : String) (b : Backend) (ref : OrgRepositoryRef)
    (req : RepositoryInfo) (o : RepositoryCreateOptions) : ReconcileOut :=
  match validateAndDefaultInfo req with
  | .error e => ⟨none, false, some e, b.store, []⟩
  | .ok req' =>
      match Get domain b ref with
      | (.error e, cs) =>
          if errorsIs e .notFound then
            let c := Create domain b ref req' o
            ⟨exceptOk c.res, true, exceptErr c.res, c.store, cs ++ c.calls⟩
          else ⟨none, false, some e, b.store, cs⟩
      | (.ok actual, cs) =>
          if req' = actual.info then
            ⟨some actual, false, none, b.store, cs⟩
          else
            match b.updateErr with
            | some ue => ⟨some ⟨actual.ref, req'⟩, true, some ue, b.store, cs ++ [.editRepo]⟩
            | none => ⟨some ⟨actual.ref, req'⟩, true, none, some req', cs ++ [.editRepo]⟩

/-! ## Helper lemmas -/

/-- Validation-and-defaulting is idempotent: re-validating an already
validated-and-defaulted info returns it unchanged. -/
theorem validateAndDefaultInfo_idem (req req' : RepositoryInfo)
    (h : validateAndDefaultInfo req = .ok req') :
    validateAndDefaultInfo req' = .ok req' := by
  unfold validateAndDefaultInfo at h
  split at h
  · simp only [Except.ok.injEq] at h
    subst h
    simp [validateAndDefaultInfo]
  · split at h
    · simp only [Except.ok.injEq] at h
      subst h
      next v hv hc => simp [validateAndDefaultInfo, hv, hc]
    · cases h

/-- Any error produced by organization-reference validation is a validation
error. -/
theorem validateOrganizationRef_validation (ref : OrganizationRef) (d : String)
    (e : GitError) (h : validateOrganizationRef ref d = some e) :
    ∃ m, e = .validation m := by
  unfold validateOrganizationRef at h
  split at h
  · split at h
    · cases h
    · simp only [Option.some.injEq] at h
      exact ⟨"invalid organization name", h.symm⟩
  · simp only [Option.some.injEq] at h
    exact ⟨"domain mismatch", h.symm⟩

/-- Any error produced by repository-reference validation is a validation
error. -/
theorem validateOrgRepositoryRef_validation (ref : OrgRepositoryRef) (d : String)
    (e : GitError) (h : validateOrgRepositoryRef ref d = some e) :
    ∃ m, e = .validation m := by
  unfold validateOrgRepositoryRef at h
  cases ho : validateOrganizationRef ref.orgRef d with
  | some e₀ =>
      rw [ho] at h
      simp only [Option.some.injEq] at h
      subst h
      exact validateOrganizationRef_validation ref.orgRef d e₀ ho
  | none =>
      rw [ho] at h
      simp only at h
      split at h
      · cases h
      · simp only [Option.some.injEq] at h
        exact ⟨"invalid repository name", h.symm⟩

/-! ## Claim theorems -/

/-- C8: for every client context and token permission argument,
`HasTokenPermission` returns `(false, ErrNoProviderSupport)` and makes no SDK
call. -/
theorem HasTokenPermission_always_unsupported (c : ClientContext) (p : TokenPermission) :
    HasTokenPermission c p = ((false, .noProviderSupport), []) := rfl

/-- C9: for every domain without a `"://"` scheme separator, `NewClient` hands
the SDK the base URL `"https://" ++ domain ++ "/"`, while the client's
`SupportedDomain` stays the un-prefixed domain string. -/
theorem NewClient_schemeless_defaults_https (d : String) (ob : Option Bool)
    (h : strContains d "://" = false) :
    (NewClient (some d) ob).2 = "https://" ++ d ++ "/" ∧
    SupportedDomain (NewClient (some d) ob).1 = d := by
  constructor
  · simp [NewClient, h]
  · simp [NewClient, SupportedDomain]

/-- Witness for C9 at the concrete domain `"example.com"`. -/
theorem NewClient_schemeless_defaults_https_witness :
    strContains "example.com" "://" = false ∧
    (NewClient (some "example.com") none).2 = "https://" ++ "example.com" ++ "/" ∧
    SupportedDomain (NewClient (some "example.com") none).1 = "example.com" :=
  ⟨by decide, NewClient_schemeless_defaults_https "example.com" none (by decide)⟩

/-- C2: with the destructive-actions flag false, `deleteRepo` fails with an
error wrapping `ErrDestructiveCallDisallowed` and the SDK call list is empty;
with the flag true the SDK `DeleteRepo` call is issued, whatever the SDK
outcome. -/
theorem deleteRepo_destructive_gate (s : Nat) (e : Option String) :
    deleteRepo s e false =
      (some (.wrapped "cannot delete repository" .destructiveCallDisallowed), []) ∧
    errorsIs (.wrapped "cannot delete repository" .destructiveCallDisallowed)
      .destructiveCallDisallowed = true ∧
    deleteRepo s e true = (handleHTTPError s e, [.deleteRepo]) :=
  ⟨rfl, by decide, rfl⟩

/-- C3 (observed behavior at the failing input): a page sequence whose second
page carries zero items together with an error makes `listOrgRepos` return the
accumulated first page successfully — the page's error is discarded by the
closure's empty-page branch instead of aborting the listing. -/
theorem listOrgRepos_swallows_empty_page_error :
    listOrgRepos [([⟨"repo-a", ⟨none, none, none⟩⟩], none),
        ([], some (.http 500 "server error"))] =
      (.ok [⟨"repo-a", ⟨none, none, none⟩⟩], 2) := rfl

/-- C4: the license-template mapping applied to the SDK request's License
field sends `"apache-2.0"` to `"Apache-2.0"`, `"mit"` to `"MIT"`, `"gpl-3.0"`
to `"GPL-3.0-only"`, and every other input to the empty string; whenever a
license-template option is given to `Create`'s request assembly, the request's
License field is exactly the mapping of that option. -/
theorem createRepository_license_mapping :
    knownLicenseTemplateMap "apache-2.0" = "Apache-2.0" ∧
    knownLicenseTemplateMap "mit" = "MIT" ∧
    knownLicenseTemplateMap "gpl-3.0" = "GPL-3.0-only" ∧
    (∀ s : String, s ≠ "apache-2.0" → s ≠ "mit" → s ≠ "gpl-3.0" →
      knownLicenseTemplateMap s = "") ∧
    (∀ (ref : OrgRepositoryRef) (req req' : RepositoryInfo)
        (o : RepositoryCreateOptions) (lt : String) (api : CreateRepoOption),
      o.licenseTemplate = some lt →
      createRepository ref req o = .ok (req', api) →
      api.license = knownLicenseTemplateMap lt) := by
  refine ⟨rfl, rfl, rfl, ?_, ?_⟩
  · intro s h1 h2 h3
    simp [knownLicenseTemplateMap, h1, h2, h3]
  · intro ref req req' o lt api hlt hc
    unfold createRepository at hc
    cases hv : validateAndDefaultInfo req with
    | error e => rw [hv] at hc; cases hc
    | ok r =>
        rw [hv] at hc
        simp only [hlt] at hc
        cases o.autoInit with
        | none =>
            simp only [Except.ok.injEq, Prod.mk.injEq] at hc
            rw [← hc.2]
        | some b =>
            simp only [Except.ok.injEq, Prod.mk.injEq] at hc
            rw [← hc.2]

/-- Witness for C4: a create assembled with the `"mit"` license template and a
lookup of a key absent from the table. -/
theorem createRepository_license_mapping_witness :
    ((⟨none, some "mit"⟩ : RepositoryCreateOptions).licenseTemplate = some "mit" ∧
      createRepository ⟨⟨"gitea.com", "myorg"⟩, "myrepo"⟩
          ⟨some "d", some "main", none⟩ ⟨none, some "mit"⟩ =
        .ok (⟨some "d", some "main", some "private"⟩,
          ⟨"myrepo", "d", "main", true, false, "MIT"⟩) ∧
      (⟨"myrepo", "d", "main", true, false, "MIT"⟩ : CreateRepoOption).license =
        knownLicenseTemplateMap "mit") ∧
    ("zlib" : String) ≠ "apache-2.0" ∧ knownLicenseTemplateMap "zlib" = "" := by
  refine ⟨⟨rfl, rfl, ?_⟩, by decide, ?_⟩
  · exact createRepository_license_mapping.2.2.2.2
      ⟨⟨"gitea.com", "myorg"⟩, "myrepo"⟩ ⟨some "d", some "main", none⟩
      ⟨some "d", some "main", some "private"⟩ ⟨none, some "mit"⟩ "mit"
      ⟨"myrepo", "d", "main", true, false, "MIT"⟩ rfl rfl
  · exact createRepository_license_mapping.2.2.2.1 "zlib"
      (by decide) (by decide) (by decide)

/-- C7: whenever `Get` succeeds, the returned repository handle's reference
equals the requested reference — the handle is built from the caller's
reference verbatim. -/
theorem Get_returns_requested_ref (domain : String) (b : Backend)
    (ref : OrgRepositoryRef) (repo : OrgRepository)
    (h : (Get domain b ref).1 = .ok repo) : repo.ref = ref := by
  unfold Get at h
  split at h
  · simp at h
  · split at h
    · simp at h
    · simp only [newOrgRepository] at h
      simp only [Except.ok.injEq] at h
      rw [← h]

/-- Witness for C7: a concrete successful `Get` whose handle carries the
requested reference. -/
theorem Get_returns_requested_ref_witness :
    (Get "gitea.com" ⟨some ⟨none, none, some "private"⟩, none, none, none⟩
        ⟨⟨"gitea.com", "o"⟩, "r"⟩).1 =
      .ok ⟨⟨⟨"gitea.com", "o"⟩, "r"⟩, ⟨none, none, some "private"⟩⟩ ∧
    (⟨⟨⟨"gitea.com", "o"⟩, "r"⟩,
      (⟨none, none, some "private"⟩ : RepositoryInfo)⟩ : OrgRepository).ref =
      ⟨⟨"gitea.com", "o"⟩, "r"⟩ :=
  ⟨rfl, Get_returns_requested_ref "gitea.com"
    ⟨some ⟨none, none, some "private"⟩, none, none, none⟩
    ⟨⟨"gitea.com", "o"⟩, "r"⟩
    ⟨⟨⟨"gitea.com", "o"⟩, "r"⟩, ⟨none, none, some "private"⟩⟩ rfl⟩

/-- C5: for a repository reference that fails validation against the client's
configured domain (and an organization reference likewise), each of `Get`,
`Create`, and `List` returns that validation error with an empty SDK call
list — validation precedes any network call — and the error really is a
validation error. -/
theorem validation_precedes_sdk_calls (domain : String) (b : Backend)
    (pages : List Page) (ref : OrgRepositoryRef) (oref : OrganizationRef)
    (req : RepositoryInfo) (o : RepositoryCreateOptions) (e e' : GitError)
    (he : validateOrgRepositoryRef ref domain = some e)
    (ho : validateOrganizationRef oref domain = some e') :
    Get domain b ref = (.error e, []) ∧
    Create domain b ref req o = ⟨.error e, b.store, []⟩ ∧
    List' domain pages oref = (.error e', []) ∧
    (∃ m, e = .validation m) ∧ (∃ m', e' = .validation m') := by
  refine ⟨?_, ?_, ?_, validateOrgRepositoryRef_validation ref domain e he,
    validateOrganizationRef_validation oref domain e' ho⟩
  · unfold Get; rw [he]
  · unfold Create; rw [he]
  · unfold List'; rw [ho]

/-- Witness for C5: a reference whose domain differs from the client's
configured one fails all three operations without any SDK call. -/
theorem validation_precedes_sdk_calls_witness :
    validateOrgRepositoryRef ⟨⟨"other.com", "o"⟩, "r"⟩ "gitea.com" =
      some (.validation "domain mismatch") ∧
    Get "gitea.com" ⟨none, none, none, none⟩ ⟨⟨"other.com", "o"⟩, "r"⟩ =
      (.error (.validation "domain mismatch"), []) ∧
    List' "gitea.com" [] ⟨"other.com", "o"⟩ =
      (.error (.validation "domain mismatch"), []) :=
  ⟨by decide,
    (validation_precedes_sdk_calls "gitea.com" ⟨none, none, none, none⟩ []
      ⟨⟨"other.com", "o"⟩, "r"⟩ ⟨"other.com", "o"⟩ ⟨none, none, none⟩ ⟨none, none⟩
      (.validation "domain mismatch") (.validation "domain mismatch")
      (by decide) (by decide)).1,
    (validation_precedes_sdk_calls "gitea.com" ⟨none, none, none, none⟩ []
      ⟨⟨"other.com", "o"⟩, "r"⟩ ⟨"other.com", "o"⟩ ⟨none, none, none⟩ ⟨none, none⟩
      (.validation "domain mismatch") (.validation "domain mismatch")
      (by decide) (by decide)).2.2.1⟩

/-- C1: `Reconcile` first validates and defaults the info (a validation error
returns before any SDK call); then attempts `Get`; if `Get` fails with
NotFound it delegates to `Create` with the defaulted info and reports
`actionTaken = true`; if `Get` succeeds and the defaulted info equals the
actual state it performs no write (`actionTaken = false`, store untouched, no
further SDK call); if it differs, the info is applied onto the actual handle
and pushed via `Update` (`EditRepo`), with `actionTaken = true`. -/
theorem Reconcile_branch_semantics (domain : String) (b : Backend)
    (ref : OrgRepositoryRef) (req : RepositoryInfo) (o : RepositoryCreateOptions)
    (href : validateOrgRepositoryRef ref domain = none)
    (hget : b.getErr = none) :
    (∀ e, validateAndDefaultInfo req = .error e →
      Reconcile domain b ref req o = ⟨none, false, some e, b.store, []⟩) ∧
    (∀ req', validateAndDefaultInfo req = .ok req' → b.store = none →
      Reconcile domain b ref req o =
        ⟨exceptOk (Create domain b ref req' o).res, true,
          exceptErr (Create domain b ref req' o).res,
          (Create domain b ref req' o).store,
          .getRepo :: (Create domain b ref req' o).calls⟩) ∧
    (∀ req' a, validateAndDefaultInfo req = .ok req' → b.store = some a →
      req' = a →
      Reconcile domain b ref req o =
        ⟨some ⟨ref, a⟩, false, none, b.store, [.getRepo]⟩) ∧
    (∀ req' a, validateAndDefaultInfo req = .ok req' → b.store = some a →
      req' ≠ a → b.updateErr = none →
      Reconcile domain b ref req o =
        ⟨some ⟨ref, req'⟩, true, none, some req', [.getRepo, .editRepo]⟩) := by
  refine ⟨?_, ?_, ?_, ?_⟩
  · intro e hv
    simp [Reconcile, hv]
  · intro req' hv hstore
    simp [Reconcile, Get, getRepoB, hv, href, hget, hstore, errorsIs]
  · intro req' a hv hstore hEq
    subst hEq
    simp [Reconcile, Get, getRepoB, hv, href, hget, hstore, newOrgRepository]
  · intro req' a hv hstore hne hupd
    simp [Reconcile, Get, getRepoB, hv, href, hget, hstore, hne, hupd,
      newOrgRepository]

/-- Witness for C1: a concrete reconcile against a backend already holding a
state different from the desired one updates it and reports an action. -/
theorem Reconcile_branch_semantics_witness :
    Reconcile "gitea.com"
        ⟨some ⟨some "old", some "main", some "private"⟩, none, none, none⟩
        ⟨⟨"gitea.com", "myorg"⟩, "myrepo"⟩
        ⟨some "new", some "main", none⟩ ⟨none, none⟩ =
      ⟨some ⟨⟨⟨"gitea.com", "myorg"⟩, "myrepo"⟩,
          ⟨some "new", some "main", some "private"⟩⟩, true, none,
        some ⟨some "new", some "main", some "private"⟩,
        [.getRepo, .editRepo]⟩ :=
  (Reconcile_branch_semantics "gitea.com"
      ⟨some ⟨some "old", some "main", some "private"⟩, none, none, none⟩
      ⟨⟨"gitea.com", "myorg"⟩, "myrepo"⟩ ⟨some "new", some "main", none⟩
      ⟨none, none⟩ (by decide) rfl).2.2.2
    ⟨some "new", some "main", some "private"⟩
    ⟨some "old", some "main", some "private"⟩ rfl rfl (by decide) rfl

/-- C10: when the desired state differs from the actual one and the `Update`
call fails, `Reconcile` reports `actionTaken = true` together with the
non-nil error, while the backend store is left unchanged — `actionTaken`
does not imply the write succeeded. -/
theorem Reconcile_update_failure_reports_action (domain : String) (b : Backend)
    (ref : OrgRepositoryRef) (req req' a : RepositoryInfo)
    (o : RepositoryCreateOptions) (ue : GitError)
    (href : validateOrgRepositoryRef ref domain = none)
    (hget : b.getErr = none)
    (hv : validateAndDefaultInfo req = .ok req')
    (hstore : b.store = some a)
    (hne : req' ≠ a)
    (hupd : b.updateErr = some ue) :
    Reconcile domain b ref req o =
      ⟨some ⟨ref, req'⟩, true, some ue, b.store, [.getRepo, .editRepo]⟩ := by
  simp [Reconcile, Get, getRepoB, hv, href, hget, hstore, hne, hupd,
    newOrgRepository]

/-- Witness for C10: a concrete failing update still reports an action, and
the store keeps the old state. -/
theorem Reconcile_update_failure_reports_action_witness :
    Reconcile "gitea.com"
        ⟨some ⟨some "old", some "main", some "private"⟩, none, none,
          some (.http 500 "update failed")⟩
        ⟨⟨"gitea.com", "org2"⟩, "repo2"⟩
        ⟨some "new", some "main", none⟩ ⟨none, none⟩ =
      ⟨some ⟨⟨⟨"gitea.com", "org2"⟩, "repo2"⟩,
          ⟨some "new", some "main", some "private"⟩⟩, true,
        some (.http 500 "update failed"),
        some ⟨some "old", some "main", some "private"⟩,
        [.getRepo, .editRepo]⟩ :=
  Reconcile_update_failure_reports_action "gitea.com"
    ⟨some ⟨some "old", some "main", some "private"⟩, none, none,
      some (.http 500 "update failed")⟩
    ⟨⟨"gitea.com", "org2"⟩, "repo2"⟩ ⟨some "new", some "main", none⟩
    ⟨some "new", some "main", some "private"⟩
    ⟨some "old", some "main", some "private"⟩ ⟨none, none⟩
    (.http 500 "update failed") (by decide) rfl rfl rfl (by decide) rfl

/-- C6 counterexample: against a backend that already holds exactly the
desired (defaulted) state, the FIRST `Reconcile` call already returns
`actionTaken = false`, contradicting the claim that the first of two
successive calls always returns `actionTaken = true`. -/
theorem Reconcile_first_call_not_always_action :
    (Reconcile "gitea.com"
        ⟨some ⟨some "desc", some "main", some "private"⟩, none, none, none⟩
        ⟨⟨"gitea.com", "myorg"⟩, "myrepo"⟩
        ⟨some "desc", some "main", none⟩ ⟨none, none⟩).actionTaken = false := rfl

/-- C6 (amended): against a faithful backend (no injected failures) and a
valid reference, the first `Reconcile` call reports an action exactly when
the stored state differs from (or lacks) the defaulted desired state, it
finishes without error leaving the store equal to the desired state, and the
second call with the same desired state is an error-free no-op that leaves
the store equal to the desired state. -/
theorem Reconcile_twice_converges (domain : String) (ref : OrgRepositoryRef)
    (req req' : RepositoryInfo) (o : RepositoryCreateOptions)
    (s : Option RepositoryInfo)
    (href : validateOrgRepositoryRef ref domain = none)
    (hv : validateAndDefaultInfo req = .ok req') :
    ((Reconcile domain ⟨s, none, none, none⟩ ref req o).actionTaken = true ↔
      s ≠ some req') ∧
    (Reconcile domain ⟨s, none, none, none⟩ ref req o).err = none ∧
    (Reconcile domain ⟨s, none, none, none⟩ ref req o).store = some req' ∧
    (Reconcile domain
        ⟨(Reconcile domain ⟨s, none, none, none⟩ ref req o).store,
          none, none, none⟩ ref req o).actionTaken = false ∧
    (Reconcile domain
        ⟨(Reconcile domain ⟨s, none, none, none⟩ ref req o).store,
          none, none, none⟩ ref req o).err = none ∧
    (Reconcile domain
        ⟨(Reconcile domain ⟨s, none, none, none⟩ ref req o).store,
          none, none, none⟩ ref req o).store = some req' := by
  have hidem := validateAndDefaultInfo_idem req req' hv
  have key : ∀ t : Option RepositoryInfo,
      ((Reconcile domain ⟨t, none, none, none⟩ ref req o).actionTaken =
        decide (t ≠ some req')) ∧
      (Reconcile domain ⟨t, none, none, none⟩ ref req o).err = none ∧
      (Reconcile domain ⟨t, none, none, none⟩ ref req o).store = some req' := by
    intro t
    cases t with
    | none =>
        simp [Reconcile, Get, getRepoB, hv, href, errorsIs, Create,
          createRepository, hidem, createRepoB, exceptOk, exceptErr,
          newOrgRepository]
    | some a =>
        by_cases ha : a = req'
        · subst ha
          simp [Reconcile, Get, getRepoB, hv, href, newOrgRepository]
        · simp [Reconcile, Get, getRepoB, hv, href, newOrgRepository,
            Ne.symm ha, ha]
  have k1 := key s
  have k2 := key (some req')
  refine ⟨?_, k1.2.1, k1.2.2, ?_, ?_, ?_⟩
  · rw [k1.1]
    simp
  · rw [k1.2.2, k2.1]
    simp
  · rw [k1.2.2]
    exact k2.2.1
  · rw [k1.2.2]
    exact k2.2.2

/-- Witness for C6 (amended): starting from an absent repository, the first
call acts and the second is a no-op leaving the desired state. -/
theorem Reconcile_twice_converges_witness :
    ((Reconcile "gitea.com" ⟨none, none, none, none⟩
        ⟨⟨"gitea.com", "org3"⟩, "repo3"⟩
        ⟨some "d3", some "main", none⟩ ⟨none, none⟩).actionTaken = true ↔
      (none : Option RepositoryInfo) ≠
        some ⟨some "d3", some "main", some "private"⟩) ∧
    (Reconcile "gitea.com"
        ⟨(Reconcile "gitea.com" ⟨none, none, none, none⟩
            ⟨⟨"gitea.com", "org3"⟩, "repo3"⟩
            ⟨some "d3", some "main", none⟩ ⟨none, none⟩).store,
          none, none, none⟩
        ⟨⟨"gitea.com", "org3"⟩, "repo3"⟩
        ⟨some "d3", some "main", none⟩ ⟨none, none⟩).store =
      some ⟨some "d3", some "main", some "private"⟩ :=
  ⟨(Reconcile_twice_converges "gitea.com" ⟨⟨"gitea.com", "org3"⟩, "repo3"⟩
      ⟨some "d3", some "main", none⟩ ⟨some "d3", some "main", some "private"⟩
      ⟨none, none⟩ none (by decide) rfl).1,
    (Reconcile_twice_converges "gitea.com" ⟨⟨"gitea.com", "org3"⟩, "repo3"⟩
      ⟨some "d3", some "main", none⟩ ⟨some "d3", some "main", some "private"⟩
      ⟨none, none⟩ none (by decide) rfl).2.2.2.2.2⟩

end GiteaSpec
